import Mathlib

/-!
Verification of the book persistence adapter
(`src/adapter/src/repository/book.rs`).

The adapter issues single SQL statements against a `books` table:

* `create` runs `INSERT INTO books (title, author, isbn, description)
  VALUES ($1,$2,$3,$4)`; the store generates the unique `book_id` and a
  `created_at` timestamp.
* `find_all` runs `SELECT book_id, title, author, isbn, description FROM books
  ORDER BY created_at DESC` and maps each row through `Book::from`.
* `find_by_id` runs the same projection with `WHERE book_id = $1` through
  `fetch_optional` and maps the optional row through `Book::from`.

Every storage failure is translated once, with
`.map_err(AppError::SpecificOperationError)`.

We embed the store as explicit state (a list of persisted rows plus the
id/timestamp generators) and each repository operation as a function from the
state and an injected storage outcome to a `(result, state)` pair.
-/

/-- The `CreateBook` command (kernel model): the four text fields, no id. -/
structure CreateBook where
  title : String
  author : String
  isbn : String
  description : String
deriving DecidableEq

/-- `BookId`: an opaque unique token generated by storage. -/
abbrev BookId := Nat

/-- The `Book` domain entity (kernel model): id plus the four text fields. -/
structure Book where
  id : BookId
  title : String
  author : String
  isbn : String
  description : String
deriving DecidableEq

/-- The `BookRow` storage-shaped record: the five selected columns. -/
structure BookRow where
  book_id : BookId
  title : String
  author : String
  isbn : String
  description : String
deriving DecidableEq

/-- Modelled from the spec: the Row Mapper (`impl From<BookRow> for Book` in
the kernel crate, absent from the sources). Per §4.2 it is the pure, total
conversion producing a `Book` with field values identical to the row's. -/
def Book.fromRow (r : BookRow) : Book :=
  { id := r.book_id, title := r.title, author := r.author,
    isbn := r.isbn, description := r.description }

/-- A persisted row of the `books` table: the five mapped columns plus the
storage-generated `created_at` timestamp used by `ORDER BY`. -/
structure StoredRow where
  book_id : BookId
  title : String
  author : String
  isbn : String
  description : String
  created_at : Nat
deriving DecidableEq

/-- The state of the store: persisted rows (most recently inserted first),
plus the generators for fresh identifiers and timestamps. -/
structure StoreState where
  rows : List StoredRow
  nextId : Nat
  clock : Nat
deriving DecidableEq

/-- The store with zero book rows. -/
def emptyStore : StoreState := { rows := [], nextId := 0, clock := 0 }

/-- Effect of the `INSERT` statement: one new row whose `book_id` and
`created_at` are generated by the store. -/
def insertBook (st : StoreState) (e : CreateBook) : StoreState :=
  { rows := { book_id := st.nextId, title := e.title, author := e.author,
              isbn := e.isbn, description := e.description,
              created_at := st.clock } :: st.rows,
    nextId := st.nextId + 1,
    clock := st.clock + 1 }

/-- An underlying storage failure (`sqlx::Error`): the classes named by the
spec (query execution, connectivity, decoding). -/
inductive DbError where
  | queryExecution (msg : String)
  | connectivity (msg : String)
  | decoding (msg : String)
deriving DecidableEq

/-- Modelled from the spec: the domain error type (`shared::error::AppError`,
absent from the sources). The adapter only ever constructs the
"specific operation error" kind, wrapping the underlying storage failure. -/
inductive AppError where
  | SpecificOperationError (cause : DbError)
deriving DecidableEq

/-- Projection of a persisted row to the five `SELECT`ed columns. -/
def toBookRow (r : StoredRow) : BookRow :=
  { book_id := r.book_id, title := r.title, author := r.author,
    isbn := r.isbn, description := r.description }

/-- The comparison of `ORDER BY created_at DESC`: `a` may precede `b` when
`a`'s timestamp is the later (or equal) one. -/
def createdDesc (a b : StoredRow) : Prop := b.created_at ≤ a.created_at

instance : DecidableRel createdDesc := fun a b => Nat.decLe b.created_at a.created_at

instance : IsTotal StoredRow createdDesc :=
  ⟨fun a b => (Nat.le_total b.created_at a.created_at).elim Or.inl Or.inr⟩

instance : IsTrans StoredRow createdDesc :=
  ⟨fun _ _ _ hab hbc => Nat.le_trans hbc hab⟩

/-- Result set of `SELECT ... FROM books ORDER BY created_at DESC`: the rows
sorted by descending creation time (stably, so ties keep store order). -/
def selectAllOrdered (st : StoreState) : List StoredRow :=
  List.insertionSort createdDesc st.rows

/-- `BookRepositoryImpl::create`: executes the `INSERT`; a storage failure is
wrapped by `map_err(AppError::SpecificOperationError)`, success yields `()`.
`dbFail` injects the outcome of the one storage statement. -/
def create (st : StoreState) (event : CreateBook) (dbFail : Option DbError) :
    Except AppError Unit × StoreState :=
  match dbFail with
  | some e => (.error (AppError.SpecificOperationError e), st)
  | none => (.ok (), insertBook st event)

/-- `BookRepositoryImpl::find_all`: fetches all rows ordered by
`created_at DESC`, maps each through `Book::from`; a storage failure is
wrapped by `map_err(AppError::SpecificOperationError)`. -/
def find_all (st : StoreState) (dbFail : Option DbError) :
    Except AppError (List Book) × StoreState :=
  match dbFail with
  | some e => (.error (AppError.SpecificOperationError e), st)
  | none => (.ok ((selectAllOrdered st).map fun r => Book.fromRow (toBookRow r)), st)

/-- `BookRepositoryImpl::find_by_id`: `fetch_optional` on
`WHERE book_id = $1` (the first matching row, if any), mapped through
`Book::from`; a storage failure is wrapped by
`map_err(AppError::SpecificOperationError)`. -/
def find_by_id (st : StoreState) (book_id : BookId) (dbFail : Option DbError) :
    Except AppError (Option Book) × StoreState :=
  match dbFail with
  | some e => (.error (AppError.SpecificOperationError e), st)
  | none =>
    (.ok ((st.rows.find? fun r => r.book_id == book_id).map
        fun r => Book.fromRow (toBookRow r)), st)

/-- The storage-enforced well-formedness of a store state: generated
identifiers and timestamps are below the generators, and identifiers are
unique across rows (the primary-key invariant). -/
def WF (st : StoreState) : Prop :=
  (∀ r ∈ st.rows, r.book_id < st.nextId ∧ r.created_at < st.clock) ∧
  (st.rows.map fun r => r.book_id).Nodup

instance (st : StoreState) : Decidable (WF st) := by
  unfold WF; exact inferInstance

/-- States reachable from the empty store by `create` operations (the reads
do not modify the store). -/
inductive Reachable : StoreState → Prop where
  | empty : Reachable emptyStore
  | create (st : StoreState) (e : CreateBook) :
      Reachable st → Reachable (insertBook st e)

theorem wf_emptyStore : WF emptyStore := by
  constructor
  · intro r hr; cases hr
  · exact List.nodup_nil

theorem wf_insertBook {st : StoreState} (h : WF st) (e : CreateBook) :
    WF (insertBook st e) := by
  obtain ⟨hbound, hnodup⟩ := h
  constructor
  · intro r hr
    rcases List.mem_cons.mp hr with heq | hmem
    · subst heq; exact ⟨Nat.lt_succ_self _, Nat.lt_succ_self _⟩
    · exact ⟨Nat.lt_succ_of_lt (hbound r hmem).1, Nat.lt_succ_of_lt (hbound r hmem).2⟩
  · refine List.nodup_cons.mpr ⟨?_, hnodup⟩
    intro hmem
    rcases List.mem_map.mp hmem with ⟨r, hr, hid⟩
    exact absurd hid (Nat.ne_of_gt (hbound r hr).1).symm

theorem reachable_wf {st : StoreState} (h : Reachable st) : WF st := by
  induction h with
  | empty => exact wf_emptyStore
  | create st e _ ih => exact wf_insertBook ih e

/-- With a well-formed store, the row inserted by `create` carries the
latest timestamp, so `ORDER BY created_at DESC` lists it first. -/
theorem selectAllOrdered_insertBook {st : StoreState} (h : WF st) (e : CreateBook) :
    selectAllOrdered (insertBook st e) =
      { book_id := st.nextId, title := e.title, author := e.author,
        isbn := e.isbn, description := e.description,
        created_at := st.clock } :: selectAllOrdered st := by
  unfold selectAllOrdered insertBook
  exact List.insertionSort_cons _ fun b hb => Nat.le_of_lt (h.1 b hb).2

/-- C7: the Row Mapper `Book::from` is a pure total function producing a
`Book` whose id/title/author/ISBN/description are identical to the row's
fields — no validation, no information loss for the carried fields. -/
theorem book_fromRow_identity (r : BookRow) :
    (Book.fromRow r).id = r.book_id ∧ (Book.fromRow r).title = r.title ∧
    (Book.fromRow r).author = r.author ∧ (Book.fromRow r).isbn = r.isbn ∧
    (Book.fromRow r).description = r.description :=
  ⟨rfl, rfl, rfl, rfl, rfl⟩

/-- C8: a successful `create` returns the unit value `()` only — neither the
generated identifier nor the constructed `Book`; the new entity is observable
only through the updated store (via `find_all`/`find_by_id`). -/
theorem create_returns_unit (st : StoreState) (e : CreateBook) :
    create st e none = (.ok (), insertBook st e) := rfl

/-- C2: each operation fails exactly when its single storage statement fails,
and then returns precisely `AppError::SpecificOperationError` wrapping the
underlying storage failure; on storage success no error is produced. -/
theorem error_translation (st : StoreState) (e : CreateBook) (id : BookId)
    (d : DbError) :
    (create st e none).1 = .ok () ∧
    (create st e (some d)).1 = .error (AppError.SpecificOperationError d) ∧
    (∃ books, (find_all st none).1 = .ok books) ∧
    (find_all st (some d)).1 = .error (AppError.SpecificOperationError d) ∧
    (∃ ob, (find_by_id st id none).1 = .ok ob) ∧
    (find_by_id st id (some d)).1 = .error (AppError.SpecificOperationError d) :=
  ⟨rfl, rfl, ⟨_, rfl⟩, rfl, ⟨_, rfl⟩, rfl⟩

/-- C6: on a store containing zero book rows, `find_all` returns `Ok` of the
empty sequence, not an error. -/
theorem find_all_empty_store (st : StoreState) (h : st.rows = []) :
    find_all st none = (.ok [], st) := by
  simp [find_all, selectAllOrdered, h, List.insertionSort]

/-- Witness for C6 at the empty store. -/
theorem find_all_empty_store_witness :
    find_all emptyStore none = (.ok [], emptyStore) :=
  find_all_empty_store emptyStore rfl

/-- C10: `find_all` and `find_by_id` are read-only — whether the storage
statement succeeds or fails, the store state is returned unchanged. -/
theorem reads_do_not_modify (st : StoreState) (f : Option DbError) (id : BookId) :
    (find_all st f).2 = st ∧ (find_by_id st id f).2 = st := by
  cases f <;> exact ⟨rfl, rfl⟩

/-- C1: from any well-formed prior store state, when `create` succeeds,
`find_all` returns exactly one more book than before, the new book first,
and its title/author/ISBN/description equal the command's fields exactly. -/
theorem create_round_trip (st : StoreState) (e : CreateBook) (hwf : WF st)
    (st' : StoreState) (hcr : create st e none = (.ok (), st')) :
    ∃ before : List Book,
      find_all st none = (.ok before, st) ∧
      find_all st' none =
        (.ok ({ id := st.nextId, title := e.title, author := e.author,
                isbn := e.isbn, description := e.description } :: before), st') ∧
      ({ id := st.nextId, title := e.title, author := e.author,
         isbn := e.isbn, description := e.description } :: before).length =
        before.length + 1 := by
  have hst : st' = insertBook st e := (congrArg Prod.snd hcr).symm
  subst hst
  refine ⟨(selectAllOrdered st).map fun r => Book.fromRow (toBookRow r), rfl, ?_, rfl⟩
  unfold find_all
  rw [selectAllOrdered_insertBook hwf e]
  rfl

/-- Witness for C1: creating a book in the empty store. -/
theorem create_round_trip_witness :
    ∃ before : List Book,
      find_all emptyStore none = (.ok before, emptyStore) ∧
      find_all (insertBook emptyStore ⟨"t", "a", "i", "d"⟩) none =
        (.ok ({ id := 0, title := "t", author := "a", isbn := "i",
                description := "d" } :: before),
         insertBook emptyStore ⟨"t", "a", "i", "d"⟩) ∧
      ({ id := 0, title := "t", author := "a", isbn := "i",
         description := "d" } :: before).length = before.length + 1 :=
  create_round_trip emptyStore ⟨"t", "a", "i", "d"⟩ (by decide)
    (insertBook emptyStore ⟨"t", "a", "i", "d"⟩) rfl

/-- When identifiers are unique, the equality lookup of `find_by_id` finds
exactly the one row carrying the identifier. -/
theorem find?_unique_row {st : StoreState}
    (hnodup : (st.rows.map fun r => r.book_id).Nodup)
    {r : StoredRow} (hr : r ∈ st.rows) :
    (st.rows.find? fun x => x.book_id == r.book_id) = some r := by
  cases hfind : st.rows.find? fun x => x.book_id == r.book_id with
  | none =>
    exfalso
    have := List.find?_eq_none.mp hfind r hr
    simp at this
  | some x =>
    have hxmem := List.mem_of_find?_eq_some hfind
    have hxp : x.book_id = r.book_id := by
      have := List.find?_some hfind
      simpa using this
    have : x = r := List.inj_on_of_nodup_map hnodup hxmem hr hxp
  
    exact congrArg some this

/-- C4: `find_by_id` reports absence as `Ok None`, never as an error; and for
an identifier carried by a persisted row it returns `Some` of that row's
book. -/
theorem find_by_id_spec (st : StoreState) (id : BookId) :
    ((∀ r ∈ st.rows, r.book_id ≠ id) → find_by_id st id none = (.ok none, st)) ∧
    (∀ r ∈ st.rows, WF st → r.book_id = id →
      find_by_id st id none = (.ok (some (Book.fromRow (toBookRow r))), st)) := by
  constructor
  · intro habs
    have hf : (st.rows.find? fun r => r.book_id == id) = none := by
      rw [List.find?_eq_none]
      intro r hr
      simpa using habs r hr
    simp [find_by_id, hf]
  · intro r hr hwf hid
    subst hid
    have hf := find?_unique_row hwf.2 hr
    simp [find_by_id, hf]

/-- Witness for C4: absence on the empty store, presence after one insert. -/
theorem find_by_id_spec_witness :
    find_by_id emptyStore 0 none = (.ok none, emptyStore) ∧
    find_by_id (insertBook emptyStore ⟨"t", "a", "i", "d"⟩) 0 none =
      (.ok (some { id := 0, title := "t", author := "a", isbn := "i",
                   description := "d" }),
       insertBook emptyStore ⟨"t", "a", "i", "d"⟩) :=
  ⟨(find_by_id_spec emptyStore 0).1 (by decide),
   (find_by_id_spec (insertBook emptyStore ⟨"t", "a", "i", "d"⟩) 0).2
     { book_id := 0, title := "t", author := "a", isbn := "i",
       description := "d", created_at := 0 }
     (by decide) (by decide) rfl⟩

/-- C5: every book listed by a successful `find_all` is returned, field for
field, by `find_by_id` on its identifier. -/
theorem find_all_lookup (st : StoreState) (hwf : WF st) (books : List Book)
    (hfa : (find_all st none).1 = .ok books) (b : Book) (hb : b ∈ books) :
    (find_by_id st b.id none).1 = .ok (some b) := by
  have hfa' : Except.ok ((selectAllOrdered st).map fun r => Book.fromRow (toBookRow r)) =
      (Except.ok books : Except AppError (List Book)) := hfa
  have hbooks : ((selectAllOrdered st).map fun r => Book.fromRow (toBookRow r)) = books := by
    injection hfa'
  obtain ⟨r, hrs, hfr⟩ := List.mem_map.mp (hbooks ▸ hb)
  have hrmem : r ∈ st.rows :=
    (List.mem_insertionSort createdDesc).mp (by simpa [selectAllOrdered] using hrs)
  have hbid : b.id = r.book_id := by rw [← hfr]; rfl
  show Except.ok ((st.rows.find? fun x => x.book_id == b.id).map
      fun r => Book.fromRow (toBookRow r)) = .ok (some b)
  rw [hbid, find?_unique_row hwf.2 hrmem]
  simp [hfr]

/-- Witness for C5 after one insert into the empty store. -/
theorem find_all_lookup_witness :
    (find_by_id (insertBook emptyStore ⟨"t", "a", "i", "d"⟩)
      (Book.id { id := 0, title := "t", author := "a", isbn := "i",
                 description := "d" }) none).1 =
      .ok (some { id := 0, title := "t", author := "a", isbn := "i",
                  description := "d" }) :=
  find_all_lookup (insertBook emptyStore ⟨"t", "a", "i", "d"⟩) (by decide)
    [{ id := 0, title := "t", author := "a", isbn := "i", description := "d" }]
    rfl
    { id := 0, title := "t", author := "a", isbn := "i", description := "d" }
    (by decide)

/-- With unique identifiers, the equality filter on an identifier matches at
most one row. -/
theorem filter_book_id_length_le_one {l : List StoredRow}
    (h : (l.map fun r => r.book_id).Nodup) (id : BookId) :
    (l.filter fun r => r.book_id == id).length ≤ 1 := by
  induction l with
  | nil => simp
  | cons a t ih =>
    rw [List.map_cons, List.nodup_cons] at h
    by_cases hp : a.book_id = id
    · have ht : (t.filter fun r => r.book_id == id) = [] := by
        rw [List.filter_eq_nil_iff]
        intro x hx hpx
        refine h.1 ?_
        rw [List.mem_map]
        refine ⟨x, hx, ?_⟩
        have hxid : x.book_id = id := by simpa using hpx
        show x.book_id = a.book_id
        rw [hxid, hp]
      simp [List.filter_cons, hp, ht]
    · have hp' : (a.book_id == id) = false := by simpa using hp
      simp only [List.filter_cons, hp', Bool.false_eq_true, if_false]
      exact ih h.2

/-- C9: in every reachable store state the identifiers are unique across the
book rows, so the equality lookup used by `find_by_id` matches at most one
row for any identifier. -/
theorem ids_unique (st : StoreState) (h : Reachable st) :
    (st.rows.map fun r => r.book_id).Nodup ∧
    ∀ id : BookId, (st.rows.filter fun r => r.book_id == id).length ≤ 1 := by
  have hwf := reachable_wf h
  exact ⟨hwf.2, fun id => filter_book_id_length_le_one hwf.2 id⟩

/-- Witness for C9 in the store reached by one `create`. -/
theorem ids_unique_witness :
    ((insertBook emptyStore ⟨"t", "a", "i", "d"⟩).rows.map fun r => r.book_id).Nodup ∧
    ((insertBook emptyStore ⟨"t", "a", "i", "d"⟩).rows.filter
        fun r => r.book_id == 0).length ≤ 1 :=
  ⟨(ids_unique (insertBook emptyStore ⟨"t", "a", "i", "d"⟩)
      (Reachable.create emptyStore ⟨"t", "a", "i", "d"⟩ Reachable.empty)).1,
   (ids_unique (insertBook emptyStore ⟨"t", "a", "i", "d"⟩)
      (Reachable.create emptyStore ⟨"t", "a", "i", "d"⟩ Reachable.empty)).2 0⟩

/-- C3: for two persisted books where A was created strictly before B, a
successful `find_all` lists B at a strictly earlier position than A
(descending creation order). -/
theorem find_all_ordering (st : StoreState) (ra rb : StoredRow)
    (ha : ra ∈ st.rows) (hb : rb ∈ st.rows)
    (hlt : ra.created_at < rb.created_at)
    (books : List Book) (hfa : (find_all st none).1 = .ok books) :
    ∃ i j : Fin books.length, i < j ∧
      books.get i = Book.fromRow (toBookRow rb) ∧
      books.get j = Book.fromRow (toBookRow ra) := by
  have hfa' : Except.ok ((selectAllOrdered st).map fun r => Book.fromRow (toBookRow r)) =
      (Except.ok books : Except AppError (List Book)) := hfa
  have hbooks : ((selectAllOrdered st).map fun r => Book.fromRow (toBookRow r)) = books := by
    injection hfa'
  subst hbooks
  have has : ra ∈ selectAllOrdered st := by
    simpa [selectAllOrdered] using (List.mem_insertionSort createdDesc).mpr ha
  have hbs : rb ∈ selectAllOrdered st := by
    simpa [selectAllOrdered] using (List.mem_insertionSort createdDesc).mpr hb
  obtain ⟨ia, hia⟩ := List.get_of_mem has
  obtain ⟨ib, hib⟩ := List.get_of_mem hbs
  have hsorted : List.Pairwise createdDesc (selectAllOrdered st) :=
    List.sorted_insertionSort createdDesc st.rows
  have hba : ib < ia := by
    rcases Nat.lt_trichotomy ib.1 ia.1 with h | h | h
    · exact h
    · exfalso
      have : ra = rb := by
        rw [← hia, ← hib]
        congr 1
        exact Fin.ext h.symm
      exact absurd (this ▸ hlt) (lt_irrefl _)
    · exfalso
      have := List.pairwise_iff_get.mp hsorted ia ib h
      rw [hia, hib] at this
      exact absurd hlt (Nat.not_lt.mpr this)
  refine ⟨⟨ib.1, by simp⟩, ⟨ia.1, by simp⟩, hba, ?_, ?_⟩
  · rw [List.get_eq_getElem, List.getElem_map]
    rw [show (selectAllOrdered st)[(ib.1 : Nat)] = rb from by
      rw [← hib, List.get_eq_getElem]]
  · rw [List.get_eq_getElem, List.getElem_map]
    rw [show (selectAllOrdered st)[(ia.1 : Nat)] = ra from by
      rw [← hia, List.get_eq_getElem]]

/-- Witness for C3 on a store with two created books. -/
theorem find_all_ordering_witness :
    ∃ i j : Fin ([Book.fromRow (toBookRow ⟨1, "t2", "a2", "i2", "d2", 1⟩),
                  Book.fromRow (toBookRow ⟨0, "t1", "a1", "i1", "d1", 0⟩)] : List Book).length,
      i < j ∧
      ([Book.fromRow (toBookRow ⟨1, "t2", "a2", "i2", "d2", 1⟩),
        Book.fromRow (toBookRow ⟨0, "t1", "a1", "i1", "d1", 0⟩)] : List Book).get i =
          Book.fromRow (toBookRow ⟨1, "t2", "a2", "i2", "d2", 1⟩) ∧
      ([Book.fromRow (toBookRow ⟨1, "t2", "a2", "i2", "d2", 1⟩),
        Book.fromRow (toBookRow ⟨0, "t1", "a1", "i1", "d1", 0⟩)] : List Book).get j =
          Book.fromRow (toBookRow ⟨0, "t1", "a1", "i1", "d1", 0⟩) :=
  find_all_ordering
    (insertBook (insertBook emptyStore ⟨"t1", "a1", "i1", "d1"⟩) ⟨"t2", "a2", "i2", "d2"⟩)
    ⟨0, "t1", "a1", "i1", "d1", 0⟩ ⟨1, "t2", "a2", "i2", "d2", 1⟩
    (by decide) (by decide) (by decide)
    [Book.fromRow (toBookRow ⟨1, "t2", "a2", "i2", "d2", 1⟩),
     Book.fromRow (toBookRow ⟨0, "t1", "a1", "i1", "d1", 0⟩)]
    rfl
